import Mathlib

/-!
Verification of the dadoo container-exec supervisor
(`src/cmd/dadoo/main_linux.go`).

The supervisor is modelled as a pure function from an environment — the
outcomes of every system call it performs (flag values, positional
arguments, FIFO open results, spawn/wait results, pid-file contents,
reap batches) — to a trace of externally observable side effects
(`Event` list) together with a final result (`RunResult`: the process
exit code, or a panic).  Each Go function of the source is embedded as
one Lean function of the same name; the anonymous console-socket
goroutine inside `setupTTYSocket` is embedded as `ttyBroker`.
-/

namespace Dadoo

/-- Result of `os.OpenFile` on one FIFO path, as distinguished by
`openFifo` in the source: opened successfully, `os.IsNotExist` (the
function returns `nil`), or any other error (fatal `check`). -/
inductive FifoOutcome where
  | opened
  | notExist
  | failed
deriving DecidableEq

/-- Externally observable side effects of the supervisor, in program
order.  Each constructor corresponds to one effectful call site in
`main_linux.go`. -/
inductive Event where
  /-- `os.OpenFile(path, flags, 0600)` inside `openFifo`. -/
  | openFifo (path : String) (flags : Nat)
  /-- `syncPipe.Write([]byte{b})` on inherited fd 5. -/
  | syncWrite (b : Nat)
  /-- `ioutil.TempDir(base, "")` inside `setupTTYSocket`. -/
  | mkTempDir (base : String)
  /-- `net.Listen("unix", path)` inside `setupTTYSocket`. -/
  | listenUnix (path : String)
  /-- spawning of the background console-socket goroutine. -/
  | spawnBroker
  /-- `system.SetSubreaper(os.Getpid())`. -/
  | setSubreaper
  /-- `runcExecCmd.Start()` for `exec.Command(path, argv...)`. -/
  | startRuntime (path : String) (argv : List String)
  /-- `fd3.Write([]byte{b})` on inherited fd 3. -/
  | fd3Write (b : Nat)
  /-- `logFD.Close()` of inherited fd 4. -/
  | closeLog
  /-- a single `parsePid(path)` attempt (`ioutil.ReadFile` + scan). -/
  | parsePidFile (path : String)
  /-- `readPid(path)`: the `retrier.New(retrier.ConstantBackoff(attempts,
  backoffMs*ms), nil)` loop around `parsePid`. -/
  | pidRetry (path : String) (attempts backoffMs : Nat)
  /-- `syscall.Kill(pid, syscall.SIGKILL)` inside `killProcess`. -/
  | sigkill (pid : Int)
  /-- `ln.Accept()` in the console-socket goroutine. -/
  | acceptConn
  /-- `ln.Close()` after a successful accept. -/
  | closeListener
  /-- `unixconn.File()`. -/
  | connFile
  /-- `cmsg.RecvFd(socket)` receiving the master pty fd. -/
  | recvFd
  /-- `os.RemoveAll(sockDir)`. -/
  | removeAll (path : String)
  /-- `ioWg.Add(n)` inside `streamProcess`. -/
  | ioWgAdd (n : Nat)
  /-- `ioWg.Wait()` in the reaper; `counter` is the wait-group value at
  that moment (the wait returns once it reaches zero). -/
  | ioWgWait (counter : Nat)
  /-- `go io.Copy(stdout, m)` — the tracked master→stdout pump. -/
  | startCopyMasterToStdout
  /-- `go io.Copy(m, stdin)`. -/
  | startCopyStdinToMaster
  /-- the winsz JSON decode / `SetWinSize` loop. -/
  | startWinszLoop
  /-- `ioutil.WriteFile(path, contents, mode)`. -/
  | writeFile (path contents : String) (mode : Nat)
deriving DecidableEq

/-- Final result of `run`: a return value (which `main` passes to
`os.Exit`) or a Go `panic`. -/
inductive RunResult where
  | exit (code : Int)
  | panicked (msg : String)
deriving DecidableEq

abbrev Trace := List Event

/-- `filepath.Join` of two clean path components (neither empty, the
first without a trailing slash), which is how every `Join` call site in
the source uses it. -/
def goJoin (a b : String) : String := a ++ "/" ++ b

/-- `const MaxSocketDirPathLength = 80`. -/
def maxSocketDirPathLength : Nat := 80

/-- Linux `os.O_RDONLY`. -/
def oRDONLY : Nat := 0
/-- Linux `os.O_WRONLY`. -/
def oWRONLY : Nat := 1
/-- Linux `os.O_RDWR`. -/
def oRDWR : Nat := 2
/-- Linux `os.O_APPEND`. -/
def oAPPEND : Nat := 1024

/-- Go `syscall.WaitStatus.ExitStatus()` on Linux:
`-1` unless `w & 0x7F == 0`, else `(w >> 8) & 0xFF`. -/
def wsExitStatus (w : Nat) : Int :=
  if w % 128 = 0 then (((w / 256) % 256 : Nat) : Int) else -1

/-- Go `syscall.WaitStatus.Signaled()` on Linux:
`w & 0x7F != 0x7F && w & 0x7F != 0`. -/
def wsSignaled (w : Nat) : Bool :=
  (w % 128 != 127) && (w % 128 != 0)

/-- Go `syscall.WaitStatus.Signal()` on Linux:
`-1` unless signaled, else `w & 0x7F`. -/
def wsSignal (w : Nat) : Int :=
  if wsSignaled w then ((w % 128 : Nat) : Int) else -1

/-- Go conversion `byte(x)` of an `int`: the low 8 bits of the
two's-complement representation. -/
def byteOfInt (x : Int) : Nat := (x % 256).toNat

/-- Environment of one supervisor run: flag values, the positional
arguments `flag.Args()`, and the outcome of every system call `run`
performs.  `reaps` holds, per received `SIGCHLD`, the successful
positive-pid `Wait4(-1, WNOHANG)` results obtained before the inner
loop breaks on an error or a non-positive pid.  `ioCounterAtWait` is
the `ioWg` wait-group value when the reaper reaches `ioWg.Wait()`; it
is only meaningful for TTY runs — the package-level `ioWg` starts at
zero and the only `Add` in the program is in `streamProcess`, reachable
solely from the TTY broker goroutine, so non-TTY runs wait on a zero
counter. -/
structure Env where
  tty : Bool
  socketDirPath : String
  args : List String
  selfPid : Nat
  fifo : String → FifoOutcome
  tempDirOk : Bool
  tempSubdir : String
  listenOk : Bool
  startOk : Bool
  wait4Ok : Bool
  frontStatus : Nat
  pidParse : Option Int
  reaps : List (List (Int × Nat))
  ioCounterAtWait : Nat
  writeFileOk : Bool

/-- Worker of `openPipes`: open each FIFO in order, stopping with a
panic at the first open that fails with a non-`IsNotExist` error
(`check(err)` in `openFifo`).  Returns the trace and whether it
panicked. -/
def openPipesGo (env : Env) : List (String × Nat) → Trace × Bool
  | [] => ([], false)
  | (p, fl) :: rest =>
    if env.fifo p = FifoOutcome.failed then ([Event.openFifo p fl], true)
    else
      let r := openPipesGo env rest
      (Event.openFifo p fl :: r.1, r.2)

/-- `openPipes`: opens `stdin` read-only, `stdout` and `stderr`
write-only append, `winsz` and the sentinel `exit` read-write. -/
def openPipes (env : Env) (dir : String) : Trace × Bool :=
  openPipesGo env
    [(goJoin dir "stdin", oRDONLY),
     (goJoin dir "stdout", oWRONLY + oAPPEND),
     (goJoin dir "stderr", oWRONLY + oAPPEND),
     (goJoin dir "winsz", oRDWR),
     (goJoin dir "exit", oRDWR)]

/-- `fmt.Sprintf("/proc/%d/fd/4", os.Getpid())`. -/
def logFilePath (selfPid : Nat) : String :=
  "/proc/" ++ toString selfPid ++ "/fd/4"

/-- `fmt.Sprintf("/proc/%d/fd/0", os.Getpid())`. -/
def procFd0 (selfPid : Nat) : String :=
  "/proc/" ++ toString selfPid ++ "/fd/0"

/-- Argument vector of the TTY-form `exec.Command` call. -/
def ttyArgv (selfPid : Nat) (ttySockPath pidFilePath containerId : String) :
    List String :=
  ["-debug", "-log", logFilePath selfPid, "exec", "-d", "-tty",
   "-console-socket", ttySockPath, "-p", procFd0 selfPid,
   "-pid-file", pidFilePath, containerId]

/-- Argument vector of the non-TTY-form `exec.Command` call. -/
def nonTtyArgv (selfPid : Nat) (pidFilePath containerId : String) :
    List String :=
  ["-debug", "-log", logFilePath selfPid, "exec", "-p", procFd0 selfPid,
   "-d", "-pid-file", pidFilePath, containerId]

/-- Inner reap loop body: scan one batch of `Wait4` results for the
tracked container pid (`wpid == containerPid`), returning its raw wait
status at the first match. -/
def findContainer (containerPid : Int) : List (Int × Nat) → Option Nat
  | [] => none
  | (wpid, w) :: rest =>
    if wpid = containerPid then some w else findContainer containerPid rest

/-- Exit-code computation of the reaper:
`exitCode = status.ExitStatus(); if status.Signaled() { exitCode = 128 +
int(status.Signal()) }`. -/
def exitCodeOf (w : Nat) : Int :=
  if wsSignaled w then 128 + wsSignal w else wsExitStatus w

/-- The `for range signals` / inner `Wait4` loop of
`waitForContainerToExit`.  On reaping the container pid it waits on the
`ioWg` counter, writes the `exitcode` file (`check`-panicking if the
write fails) and returns the exit code; if the signal channel is
exhausted it panics (`"ran out of signals"`). -/
def waitGo (wgCount : Nat) (writeOk : Bool) (processStateDir : String)
    (containerPid : Int) : List (List (Int × Nat)) → Trace × RunResult
  | [] => ([], RunResult.panicked "ran out of signals")
  | batch :: rest =>
    match findContainer containerPid batch with
    | some w =>
      let ec := exitCodeOf w
      let t := [Event.ioWgWait wgCount,
                Event.writeFile (goJoin processStateDir "exitcode")
                  (toString ec) 448]
      if writeOk then (t, RunResult.exit ec)
      else (t, RunResult.panicked "write exitcode failed")
    | none => waitGo wgCount writeOk processStateDir containerPid rest

/-- `waitForContainerToExit(processStateDir, containerPid, signals)`. -/
def waitForContainerToExit (env : Env) (wgCount : Nat)
    (processStateDir : String) (containerPid : Int) : Trace × RunResult :=
  waitGo wgCount env.writeFileOk processStateDir containerPid env.reaps

/-- `setupTTYSocket` up to the return of the socket path: `TempDir`
(fatal on error), `net.Listen` on `<tmpdir>/tty.sock` (fatal on error),
then spawn of the broker goroutine.  `none` models a `check` panic. -/
def setupTTYSocket (env : Env) : Trace × Option String :=
  if !env.tempDirOk then ([Event.mkTempDir env.socketDirPath], none)
  else
    let sockDir := goJoin env.socketDirPath env.tempSubdir
    let ttySockPath := goJoin sockDir "tty.sock"
    if !env.listenOk then
      ([Event.mkTempDir env.socketDirPath, Event.listenUnix ttySockPath], none)
    else
      ([Event.mkTempDir env.socketDirPath, Event.listenUnix ttySockPath,
        Event.spawnBroker], some ttySockPath)

/-- Tail of `run` from `system.SetSubreaper` on: start the runtime
(status byte `2` and exit code `2` on failure), `Wait4` the
front-process (`check` panic on wait error), close the log fd, report
the front-process status byte on fd 3, exit `3` if it is non-zero,
`parsePid` the pid file (`check` panic on error), then hand over to
`waitForContainerToExit`. -/
def afterSpawn (env : Env) (t0 : Trace) (runtime : String)
    (argv : List String) (processStateDir pidFilePath : String)
    (wgCount : Nat) : Trace × RunResult :=
  let t := t0 ++ [Event.setSubreaper, Event.startRuntime runtime argv]
  if !env.startOk then (t ++ [Event.fd3Write 2], RunResult.exit 2)
  else if !env.wait4Ok then (t, RunResult.panicked "wait4 failed")
  else
    let st := wsExitStatus env.frontStatus
    let t := t ++ [Event.closeLog, Event.fd3Write (byteOfInt st)]
    if st ≠ 0 then (t, RunResult.exit 3)
    else
      let t := t ++ [Event.parsePidFile pidFilePath]
      match env.pidParse with
      | none => (t, RunResult.panicked "parsePid failed")
      | some pid =>
        let r := waitForContainerToExit env wgCount processStateDir pid
        (t ++ r.1, r.2)

/-- `flag.Args()[i]` access (the source would panic on out-of-range
indices; `run` guards the length up front so the default is never
used). -/
def argD (l : List String) (i : Nat) : String := l.getD i ""

/-- `run()`: the top-level supervisor sequence.  Positional arguments
are `flag.Args()`; the source indexes them at 1, 2 and 3 (a Go
index-out-of-range panic if fewer than four are present).  FIFOs are
opened, the sync byte `0` is written on fd 5, then the TTY branch
checks `len(*socketDirPath) > MaxSocketDirPathLength` (Go `len` of a
string counts bytes) and sets up the console socket, and both branches
fall into `afterSpawn`.  Non-TTY runs never spawn the broker goroutine,
so their `ioWg` counter at `ioWg.Wait()` is zero. -/
def run (env : Env) : Trace × RunResult :=
  if env.args.length < 4 then ([], RunResult.panicked "index out of range")
  else
    let runtime := argD env.args 1
    let processStateDir := argD env.args 2
    let containerId := argD env.args 3
    let pidFilePath := goJoin processStateDir "pidfile"
    let op := openPipes env processStateDir
    if op.2 then (op.1, RunResult.panicked "open fifo failed")
    else
      let t := op.1 ++ [Event.syncWrite 0]
      if env.tty then
        if env.socketDirPath.utf8ByteSize > maxSocketDirPathLength then
          (t, RunResult.panicked
            "value for --socket-dir-path cannot exceed 80 characters in length")
        else
          let s := setupTTYSocket env
          match s.2 with
          | none => (t ++ s.1, RunResult.panicked "setupTTYSocket failed")
          | some ttySockPath =>
            afterSpawn env (t ++ s.1) runtime
              (ttyArgv env.selfPid ttySockPath pidFilePath containerId)
              processStateDir pidFilePath env.ioCounterAtWait
      else
        afterSpawn env t runtime
          (nonTtyArgv env.selfPid pidFilePath containerId)
          processStateDir pidFilePath 0

/-- Outcomes of the system calls performed by the console-socket
goroutine of `setupTTYSocket` and by `killProcess`.  `pidAttempt i` is
the result of the `i`-th `parsePid` attempt inside `readPid`. -/
structure BrokerEnv where
  acceptOk : Bool
  isUnixConn : Bool
  fileOk : Bool
  recvFdOk : Bool
  pidAttempt : Nat → Option Int

/-- `retrier.ConstantBackoff(20, 500*time.Millisecond)`: length of the
backoff slice, i.e. the number of retries after the first attempt. -/
def constantBackoffCount : Nat := 20

/-- The constant backoff interval, in milliseconds. -/
def constantBackoffMillis : Nat := 500

/-- `retrier.Run` of go-resiliency: run the work; on success stop; on
failure retry after the backoff, at most `fuel` more times. -/
def retrierRunAux (att : Nat → Option Int) : Nat → Nat → Option Int
  | i, 0 => att i
  | i, n + 1 =>
    match att i with
    | some p => some p
    | none => retrierRunAux att (i + 1) n

/-- `readPid(pidFilePath)`: `parsePid` under a 20-step 500 ms
constant-backoff retrier. -/
def readPid (att : Nat → Option Int) : Option Int :=
  retrierRunAux att 0 constantBackoffCount

/-- `killProcess(pidFilePath)`: read the pid with retry; on success,
SIGKILL it; a read failure is ignored. -/
def killProcess (pidFilePath : String) (att : Nat → Option Int) : Trace :=
  Event.pidRetry pidFilePath constantBackoffCount constantBackoffMillis ::
    (match readPid att with
     | some pid => [Event.sigkill pid]
     | none => [])

/-- `streamProcess`: register the tracked master→stdout pump on `ioWg`
and start the three pumps. -/
def streamProcess : Trace :=
  [Event.ioWgAdd 1, Event.startCopyMasterToStdout,
   Event.startCopyStdinToMaster, Event.startWinszLoop]

/-- Body of the console-socket goroutine, returning its trace and
whether the named return `err` is non-nil: `Accept` (sets `err`),
`ln.Close()`, the `*net.UnixConn` type assertion (returns with a *nil*
`err` on failure), `unixconn.File()` (sets `err`), `cmsg.RecvFd` (sets
`err`), then `os.RemoveAll(sockDir)` and `streamProcess`. -/
def ttyBrokerBody (env : BrokerEnv) (sockDir : String) : Trace × Bool :=
  if !env.acceptOk then ([Event.acceptConn], true)
  else
    let t := [Event.acceptConn, Event.closeListener]
    if !env.isUnixConn then (t, false)
    else if !env.fileOk then (t ++ [Event.connFile], true)
    else if !env.recvFdOk then (t ++ [Event.connFile, Event.recvFd], true)
    else
      (t ++ [Event.connFile, Event.recvFd, Event.removeAll sockDir]
         ++ streamProcess, false)

/-- The console-socket goroutine with its deferred handler: if the body
returned a non-nil `err`, run `killProcess(pidFilePath)` and
`panic(err)`.  The returned `Bool` is whether it panicked. -/
def ttyBroker (env : BrokerEnv) (pidFilePath sockDir : String) :
    Trace × Bool :=
  let body := ttyBrokerBody env sockDir
  if body.2 then (body.1 ++ killProcess pidFilePath env.pidAttempt, true)
  else (body.1, false)

/-! ### Observation functions on traces -/

/-- Whether an event is a `writeFile` (the only file the supervisor
ever writes is the `exitcode` file). -/
def isWriteEvent : Event → Bool
  | Event.writeFile _ _ _ => true
  | _ => false

/-- Whether an event is a Unix-socket listen. -/
def isListen : Event → Bool
  | Event.listenUnix _ => true
  | _ => false

/-- Whether an event is a runtime spawn attempt. -/
def isStart : Event → Bool
  | Event.startRuntime _ _ => true
  | _ => false

/-- Whether an event is a retried pid-file read. -/
def isPidRetry : Event → Bool
  | Event.pidRetry _ _ _ => true
  | _ => false

/-- Whether an event is an `ioWg.Add`. -/
def isWgAdd : Event → Bool
  | Event.ioWgAdd _ => true
  | _ => false

/-- Whether an event is the spawn of the console-socket goroutine. -/
def isBrokerSpawn : Event → Bool
  | Event.spawnBroker => true
  | _ => false

/-- The byte of an fd-3 status write, if any. -/
def fd3Byte : Event → Option Nat
  | Event.fd3Write b => some b
  | _ => none

/-- The counter value of an `ioWg.Wait`, if any. -/
def waitCounter : Event → Option Nat
  | Event.ioWgWait c => some c
  | _ => none

/-- The runtime path of the first spawn attempt in a trace. -/
def spawnedRuntime : Trace → Option String
  | [] => none
  | Event.startRuntime p _ :: _ => some p
  | _ :: rest => spawnedRuntime rest

/-- Scanning from the left, an `ioWg.Wait` (or the end of the trace) is
reached before any file write: every write in the trace happens after
the output-drain wait. -/
def noWriteBeforeWait : Trace → Bool
  | [] => true
  | Event.writeFile _ _ _ :: _ => false
  | Event.ioWgWait _ :: _ => true
  | _ :: rest => noWriteBeforeWait rest

/-- First raw wait status with which the container pid is reaped, over
the whole sequence of reap batches. -/
def firstReap (pid : Int) : List (List (Int × Nat)) → Option Nat
  | [] => none
  | b :: rest =>
    match findContainer pid b with
    | some w => some w
    | none => firstReap pid rest

end Dadoo

namespace Dadoo

/-! ### Helper lemmas -/

/-- Every event of the FIFO-opening phase is an `openFifo`. -/
lemma openPipesGo_events (env : Env) (l : List (String × Nat)) :
    ∀ e ∈ (openPipesGo env l).1, ∃ p f, e = Event.openFifo p f := by
  induction l with
  | nil => intro e he; simp [openPipesGo] at he
  | cons x rest ih =>
    obtain ⟨p, fl⟩ := x
    intro e he
    by_cases h : env.fifo p = FifoOutcome.failed
    · simp [openPipesGo, h] at he
      exact ⟨p, fl, he⟩
    · simp only [openPipesGo, h, if_false, List.mem_cons] at he
      rcases he with rfl | he
      · exact ⟨p, fl, rfl⟩
      · exact ih e he

/-- If no FIFO open fails fatally, the opening phase does not panic. -/
lemma openPipesGo_ok (env : Env) (hf : ∀ p, env.fifo p ≠ FifoOutcome.failed) :
    ∀ l : List (String × Nat), (openPipesGo env l).2 = false := by
  intro l
  induction l with
  | nil => rfl
  | cons x rest ih =>
    obtain ⟨p, fl⟩ := x
    simp [openPipesGo, hf p, ih]

/-- `wsSignaled` unfolded to a proposition. -/
lemma wsSignaled_iff (w : Nat) :
    wsSignaled w = true ↔ (w % 128 ≠ 127 ∧ w % 128 ≠ 0) := by
  simp [wsSignaled]

/-- Characterization of a normal reaper return: the write succeeded,
the exit code is that of the first reap of the container pid, and the
trace is exactly the drain wait followed by the exitcode-file write. -/
lemma waitGo_exit (wgCount : Nat) (writeOk : Bool) (dir : String)
    (pid : Int) :
    ∀ (reaps : List (List (Int × Nat))) (ec : Int),
      (waitGo wgCount writeOk dir pid reaps).2 = RunResult.exit ec →
      writeOk = true ∧ ∃ w, firstReap pid reaps = some w ∧
        ec = exitCodeOf w ∧
        (waitGo wgCount writeOk dir pid reaps).1 =
          [Event.ioWgWait wgCount,
           Event.writeFile (goJoin dir "exitcode") (toString ec) 448] := by
  intro reaps
  induction reaps with
  | nil => intro ec h; simp [waitGo] at h
  | cons b rest ih =>
    intro ec h
    cases hf : findContainer pid b with
    | some w =>
      cases writeOk with
      | false => simp [waitGo, hf] at h
      | true =>
        simp only [waitGo, hf, if_true] at h
        simp only [RunResult.exit.injEq] at h
        refine ⟨rfl, w, ?_, ?_, ?_⟩
        · simp [firstReap, hf]
        · omega
        · simp [waitGo, hf, h]
    | none =>
      simp only [waitGo, hf] at h ⊢
      have := ih ec h
      simpa [firstReap, hf] using this

/-- The reaper trace satisfies any event predicate vacuously false on
its two event kinds. -/
lemma waitGo_any (q : Event → Bool) (hW : ∀ c, q (Event.ioWgWait c) = false)
    (hF : ∀ p s m, q (Event.writeFile p s m) = false)
    (wgCount : Nat) (writeOk : Bool) (dir : String) (pid : Int) :
    ∀ reaps, ((waitGo wgCount writeOk dir pid reaps).1).any q = false := by
  intro reaps
  induction reaps with
  | nil => rfl
  | cons b rest ih =>
    cases hf : findContainer pid b with
    | some w => cases writeOk <;> simp [waitGo, hf, hW, hF]
    | none => simpa [waitGo, hf] using ih

/-- The reaper trace contributes nothing under an extractor that is
`none` on its two event kinds. -/
lemma waitGo_filterMap (g : Event → Option Nat)
    (hW : ∀ c, g (Event.ioWgWait c) = none)
    (hF : ∀ p s m, g (Event.writeFile p s m) = none)
    (wgCount : Nat) (writeOk : Bool) (dir : String) (pid : Int) :
    ∀ reaps, ((waitGo wgCount writeOk dir pid reaps).1).filterMap g = [] := by
  intro reaps
  induction reaps with
  | nil => rfl
  | cons b rest ih =>
    cases hf : findContainer pid b with
    | some w => cases writeOk <;> simp [waitGo, hf, hW, hF]
    | none => simpa [waitGo, hf] using ih

/-- Every `ioWg.Wait` in the reaper trace observes the counter value it
was given. -/
lemma waitGo_waitCounter (wgCount : Nat) (writeOk : Bool) (dir : String)
    (pid : Int) :
    ∀ reaps c,
      c ∈ ((waitGo wgCount writeOk dir pid reaps).1).filterMap waitCounter →
      c = wgCount := by
  intro reaps
  induction reaps with
  | nil => intro c h; simp [waitGo] at h
  | cons b rest ih =>
    intro c h
    cases hf : findContainer pid b with
    | some w =>
      cases writeOk <;> simp [waitGo, hf, waitCounter] at h <;> exact h
    | none =>
      simp only [waitGo, hf] at h
      exact ih c h

/-- Scanning skips over an event that is neither a write nor a wait. -/
lemma noWriteBeforeWait_cons (x : Event) (l : Trace)
    (hx : isWriteEvent x = false) (hw : waitCounter x = none) :
    noWriteBeforeWait (x :: l) = noWriteBeforeWait l := by
  cases x <;> simp [noWriteBeforeWait, isWriteEvent, waitCounter] at hx hw ⊢

/-- Prepending write-free events preserves the wait-before-write
scanning property. -/
lemma noWriteBeforeWait_append (a b : Trace)
    (ha : ∀ e ∈ a, isWriteEvent e = false)
    (hb : noWriteBeforeWait b = true) :
    noWriteBeforeWait (a ++ b) = true := by
  induction a with
  | nil => simpa
  | cons x rest ih =>
    have hx := ha x (by simp)
    have hrest : ∀ e ∈ rest, isWriteEvent e = false :=
      fun e he => ha e (by simp [he])
    have ih' := ih hrest
    cases hw : waitCounter x with
    | some c =>
      have hxw : x = Event.ioWgWait c := by
        cases x <;> simp_all [waitCounter]
      subst hxw
      simp [noWriteBeforeWait]
    | none =>
      rw [List.cons_append, noWriteBeforeWait_cons x _ hx hw]
      exact ih'

/-- The reaper trace itself satisfies the scanning property: its write
is immediately preceded by the drain wait. -/
lemma waitGo_nwbw (wgCount : Nat) (writeOk : Bool) (dir : String)
    (pid : Int) :
    ∀ reaps, noWriteBeforeWait (waitGo wgCount writeOk dir pid reaps).1 = true := by
  intro reaps
  induction reaps with
  | nil => rfl
  | cons b rest ih =>
    cases hf : findContainer pid b with
    | some w => cases writeOk <;> simp [waitGo, hf, noWriteBeforeWait]
    | none => simpa [waitGo, hf] using ih

end Dadoo

namespace Dadoo

/-- `openPipes` does not panic when no FIFO open fails fatally. -/
lemma openPipes_ok (env : Env) (hf : ∀ p, env.fifo p ≠ FifoOutcome.failed)
    (dir : String) : (openPipes env dir).2 = false :=
  openPipesGo_ok env hf _

/-- The FIFO-opening trace satisfies any predicate false on `openFifo`. -/
lemma openPipes_any (env : Env) (dir : String) (q : Event → Bool)
    (hq : ∀ p f, q (Event.openFifo p f) = false) :
    ((openPipes env dir).1).any q = false :=
  List.any_eq_false.mpr fun e he => by
    obtain ⟨p, f, rfl⟩ := openPipesGo_events env _ e he
    simp [hq]

/-- The FIFO-opening trace contributes nothing under an extractor that
is `none` on `openFifo`. -/
lemma openPipes_filterMap (env : Env) (dir : String) (g : Event → Option Nat)
    (hg : ∀ p f, g (Event.openFifo p f) = none) :
    ((openPipes env dir).1).filterMap g = [] :=
  List.filterMap_eq_nil_iff.mpr fun e he => by
    obtain ⟨p, f, rfl⟩ := openPipesGo_events env _ e he
    simp [hg]

/-- `run` on a non-TTY environment, reduced to `afterSpawn`. -/
lemma run_eq_nonTty (env : Env) (hargs : ¬ env.args.length < 4)
    (hop : (openPipes env (argD env.args 2)).2 = false)
    (htty : env.tty = false) :
    run env =
      afterSpawn env
        ((openPipes env (argD env.args 2)).1 ++ [Event.syncWrite 0])
        (argD env.args 1)
        (nonTtyArgv env.selfPid (goJoin (argD env.args 2) "pidfile")
          (argD env.args 3))
        (argD env.args 2) (goJoin (argD env.args 2) "pidfile") 0 := by
  simp [run, hargs, htty, hop]

/-- `run` on a TTY environment whose socket-dir path passes the length
check and whose socket setup succeeds, reduced to `afterSpawn`. -/
lemma run_eq_tty (env : Env) (hargs : ¬ env.args.length < 4)
    (hop : (openPipes env (argD env.args 2)).2 = false)
    (htty : env.tty = true)
    (hsz : ¬ env.socketDirPath.utf8ByteSize > maxSocketDirPathLength)
    (htd : env.tempDirOk = true) (hls : env.listenOk = true) :
    run env =
      afterSpawn env
        ((openPipes env (argD env.args 2)).1 ++ [Event.syncWrite 0]
          ++ [Event.mkTempDir env.socketDirPath,
              Event.listenUnix
                (goJoin (goJoin env.socketDirPath env.tempSubdir) "tty.sock"),
              Event.spawnBroker])
        (argD env.args 1)
        (ttyArgv env.selfPid
          (goJoin (goJoin env.socketDirPath env.tempSubdir) "tty.sock")
          (goJoin (argD env.args 2) "pidfile") (argD env.args 3))
        (argD env.args 2) (goJoin (argD env.args 2) "pidfile")
        env.ioCounterAtWait := by
  simp [run, hargs, htty, hsz, hop, setupTTYSocket, htd, hls]

/-- `run` on a TTY environment whose socket-dir path exceeds the length
limit: it panics right after the sync byte. -/
lemma run_eq_tty_toolong (env : Env) (hargs : ¬ env.args.length < 4)
    (hop : (openPipes env (argD env.args 2)).2 = false)
    (htty : env.tty = true)
    (hsz : env.socketDirPath.utf8ByteSize > maxSocketDirPathLength) :
    run env =
      ((openPipes env (argD env.args 2)).1 ++ [Event.syncWrite 0],
       RunResult.panicked
         "value for --socket-dir-path cannot exceed 80 characters in length") := by
  simp [run, hargs, htty, hsz, hop]

/-- `afterSpawn` when the runtime fails to start. -/
lemma afterSpawn_startFail (env : Env) (t0 : Trace) (rt : String)
    (argv : List String) (dir pf : String) (wg : Nat)
    (hstart : env.startOk = false) :
    afterSpawn env t0 rt argv dir pf wg =
      (t0 ++ [Event.setSubreaper, Event.startRuntime rt argv,
              Event.fd3Write 2],
       RunResult.exit 2) := by
  simp [afterSpawn, hstart]

/-- `afterSpawn` when the front-process exits non-zero. -/
lemma afterSpawn_frontNonzero (env : Env) (t0 : Trace) (rt : String)
    (argv : List String) (dir pf : String) (wg : Nat)
    (hstart : env.startOk = true) (hwait4 : env.wait4Ok = true)
    (hnz : wsExitStatus env.frontStatus ≠ 0) :
    afterSpawn env t0 rt argv dir pf wg =
      (t0 ++ [Event.setSubreaper, Event.startRuntime rt argv,
              Event.closeLog,
              Event.fd3Write (byteOfInt (wsExitStatus env.frontStatus))],
       RunResult.exit 3) := by
  simp [afterSpawn, hstart, hwait4, hnz]

/-- `afterSpawn` when the front-process exits zero and the pid file
parses: it defers to the reaper. -/
lemma afterSpawn_success (env : Env) (t0 : Trace) (rt : String)
    (argv : List String) (dir pf : String) (wg : Nat) (pid : Int)
    (hstart : env.startOk = true) (hwait4 : env.wait4Ok = true)
    (hfront : wsExitStatus env.frontStatus = 0)
    (hpid : env.pidParse = some pid) :
    afterSpawn env t0 rt argv dir pf wg =
      (t0 ++ [Event.setSubreaper, Event.startRuntime rt argv,
              Event.closeLog, Event.fd3Write 0, Event.parsePidFile pf]
          ++ (waitGo wg env.writeFileOk dir pid env.reaps).1,
       (waitGo wg env.writeFileOk dir pid env.reaps).2) := by
  have hb : byteOfInt 0 = 0 := by decide
  simp [afterSpawn, hstart, hwait4, hfront, hpid, hb, waitForContainerToExit]

/-- `afterSpawn` when the front-process exits zero but the pid file
does not parse: fatal. -/
lemma afterSpawn_pidFail (env : Env) (t0 : Trace) (rt : String)
    (argv : List String) (dir pf : String) (wg : Nat)
    (hstart : env.startOk = true) (hwait4 : env.wait4Ok = true)
    (hfront : wsExitStatus env.frontStatus = 0)
    (hpid : env.pidParse = none) :
    afterSpawn env t0 rt argv dir pf wg =
      (t0 ++ [Event.setSubreaper, Event.startRuntime rt argv,
              Event.closeLog, Event.fd3Write 0, Event.parsePidFile pf],
       RunResult.panicked "parsePid failed") := by
  have hb : byteOfInt 0 = 0 := by decide
  simp [afterSpawn, hstart, hwait4, hfront, hpid, hb]

end Dadoo

namespace Dadoo

/-- `afterSpawn` when the front-process `Wait4` itself errors. -/
lemma afterSpawn_wait4Fail (env : Env) (t0 : Trace) (rt : String)
    (argv : List String) (dir pf : String) (wg : Nat)
    (hstart : env.startOk = true) (hw : env.wait4Ok = false) :
    afterSpawn env t0 rt argv dir pf wg =
      (t0 ++ [Event.setSubreaper, Event.startRuntime rt argv],
       RunResult.panicked "wait4 failed") := by
  simp [afterSpawn, hstart, hw]

/-- A trace with no write events trivially satisfies the scanning
property. -/
lemma noWriteBeforeWait_of_noWrite (t : Trace)
    (ha : ∀ e ∈ t, isWriteEvent e = false) :
    noWriteBeforeWait t = true := by
  have h := noWriteBeforeWait_append t [] ha rfl
  simpa using h

/-- Exit-code formula in the exited case. -/
lemma exitCodeOf_exited (w : Nat) (h : w % 128 = 0) :
    exitCodeOf w = (((w / 256) % 256 : Nat) : Int) := by
  simp [exitCodeOf, wsSignaled, wsExitStatus, h]

/-- Exit-code formula in the signaled case. -/
lemma exitCodeOf_signaled (w : Nat) (h1 : w % 128 ≠ 0) (h2 : w % 128 ≠ 127) :
    exitCodeOf w = 128 + ((w % 128 : Nat) : Int) := by
  simp [exitCodeOf, wsSignaled, wsSignal, h1, h2]

/-- A successful `afterSpawn` return travels through the reaper: the
pid file parsed, the container pid was reaped, and the exitcode file
write is in the trace with the returned code as ASCII decimal and mode
`0700`. -/
lemma afterSpawn_exit (env : Env) (t0 : Trace) (rt : String)
    (argv : List String) (dir pf : String) (wg : Nat) (t : Trace) (ec : Int)
    (hstart : env.startOk = true)
    (hfront : wsExitStatus env.frontStatus = 0)
    (hAS : afterSpawn env t0 rt argv dir pf wg = (t, RunResult.exit ec)) :
    ∃ pid w, env.pidParse = some pid ∧ firstReap pid env.reaps = some w ∧
      ec = exitCodeOf w ∧
      Event.writeFile (goJoin dir "exitcode") (toString ec) 448 ∈ t := by
  cases hwait4 : env.wait4Ok with
  | false =>
    rw [afterSpawn_wait4Fail env t0 rt argv dir pf wg hstart hwait4] at hAS
    simp at hAS
  | true =>
    cases hpid : env.pidParse with
    | none =>
      rw [afterSpawn_pidFail env t0 rt argv dir pf wg hstart hwait4 hfront
        hpid] at hAS
      simp at hAS
    | some pid =>
      rw [afterSpawn_success env t0 rt argv dir pf wg pid hstart hwait4 hfront
        hpid] at hAS
      have ht := congrArg Prod.fst hAS
      have hr := congrArg Prod.snd hAS
      simp only at ht hr
      obtain ⟨-, w, hfind, hec, htr⟩ :=
        waitGo_exit wg env.writeFileOk dir pid env.reaps ec hr
      refine ⟨pid, w, rfl, hfind, hec, ?_⟩
      rw [← ht, htr]
      simp

end Dadoo

namespace Dadoo

/-- Claim C1: for every successful run — runtime spawned, front-process
exited 0, container pid reaped, `run` returning a normal exit code —
the value persisted to the exitcode file equals `128 + signal_number`
if the raw wait status says the container process was killed by a
signal, else the container's exit status; it is written as ASCII
decimal to `<processStateDir>/exitcode` with mode `0700` (octal 448),
and the supervisor's own exit code is that same value. -/
theorem claim1_exitcode_persisted (env : Env) (t : Trace) (ec : Int)
    (hstart : env.startOk = true)
    (hfront : wsExitStatus env.frontStatus = 0)
    (hrun : run env = (t, RunResult.exit ec)) :
    ∃ pid w, env.pidParse = some pid ∧ firstReap pid env.reaps = some w ∧
      (w % 128 = 0 → ec = (((w / 256) % 256 : Nat) : Int)) ∧
      (w % 128 ≠ 0 → w % 128 ≠ 127 → ec = 128 + ((w % 128 : Nat) : Int)) ∧
      Event.writeFile (goJoin (argD env.args 2) "exitcode")
        (toString ec) 448 ∈ t := by
  have main : ∃ pid w, env.pidParse = some pid ∧
      firstReap pid env.reaps = some w ∧ ec = exitCodeOf w ∧
      Event.writeFile (goJoin (argD env.args 2) "exitcode")
        (toString ec) 448 ∈ t := by
    by_cases hargs : env.args.length < 4
    · simp [run, hargs] at hrun
    · cases hop : (openPipes env (argD env.args 2)).2 with
      | true => simp [run, hargs, hop] at hrun
      | false =>
        cases htty : env.tty with
        | false =>
          simp only [run, hargs, if_false, hop, Bool.false_eq_true, htty]
            at hrun
          exact afterSpawn_exit env _ _ _ _ _ _ t ec hstart hfront hrun
        | true =>
          by_cases hsz :
              env.socketDirPath.utf8ByteSize > maxSocketDirPathLength
          · simp [run, hargs, hop, htty, hsz] at hrun
          · cases htd : env.tempDirOk with
            | false =>
              simp [run, hargs, hop, htty, hsz, setupTTYSocket, htd] at hrun
            | true =>
              cases hls : env.listenOk with
              | false =>
                simp [run, hargs, hop, htty, hsz, setupTTYSocket, htd, hls]
                  at hrun
              | true =>
                simp only [run, hargs, if_false, hop, Bool.false_eq_true,
                  htty, if_true, hsz, setupTTYSocket, htd, hls,
                  Bool.not_true] at hrun
                exact afterSpawn_exit env _ _ _ _ _ _ t ec hstart hfront hrun
  obtain ⟨pid, w, hpid, hfind, hec, hmem⟩ := main
  refine ⟨pid, w, hpid, hfind, ?_, ?_, hmem⟩
  · intro h; rw [hec, exitCodeOf_exited w h]
  · intro h1 h2; rw [hec, exitCodeOf_signaled w h1 h2]

end Dadoo

namespace Dadoo

/-- `run` on a TTY environment whose temp-dir creation fails. -/
lemma run_eq_tempDirFail (env : Env) (hargs : ¬ env.args.length < 4)
    (hop : (openPipes env (argD env.args 2)).2 = false)
    (htty : env.tty = true)
    (hsz : ¬ env.socketDirPath.utf8ByteSize > maxSocketDirPathLength)
    (htd : env.tempDirOk = false) :
    run env =
      ((openPipes env (argD env.args 2)).1
        ++ [Event.syncWrite 0, Event.mkTempDir env.socketDirPath],
       RunResult.panicked "setupTTYSocket failed") := by
  simp [run, hargs, hop, htty, hsz, setupTTYSocket, htd]

/-- `run` on a TTY environment whose socket listen fails. -/
lemma run_eq_listenFail (env : Env) (hargs : ¬ env.args.length < 4)
    (hop : (openPipes env (argD env.args 2)).2 = false)
    (htty : env.tty = true)
    (hsz : ¬ env.socketDirPath.utf8ByteSize > maxSocketDirPathLength)
    (htd : env.tempDirOk = true) (hls : env.listenOk = false) :
    run env =
      ((openPipes env (argD env.args 2)).1
        ++ [Event.syncWrite 0, Event.mkTempDir env.socketDirPath,
            Event.listenUnix
              (goJoin (goJoin env.socketDirPath env.tempSubdir) "tty.sock")],
       RunResult.panicked "setupTTYSocket failed") := by
  simp [run, hargs, hop, htty, hsz, setupTTYSocket, htd, hls]

/-- `run` when a FIFO open fails fatally. -/
lemma run_eq_fifoFail (env : Env) (hargs : ¬ env.args.length < 4)
    (hop : (openPipes env (argD env.args 2)).2 = true) :
    run env =
      ((openPipes env (argD env.args 2)).1,
       RunResult.panicked "open fifo failed") := by
  simp [run, hargs, hop]

/-- The whole `afterSpawn` phase satisfies the wait-before-write
scanning property, given a write-free prefix. -/
lemma afterSpawn_nwbw (env : Env) (t0 : Trace) (rt : String)
    (argv : List String) (dir pf : String) (wg : Nat)
    (h0 : ∀ e ∈ t0, isWriteEvent e = false) :
    noWriteBeforeWait (afterSpawn env t0 rt argv dir pf wg).1 = true := by
  cases hstart : env.startOk with
  | false =>
    rw [afterSpawn_startFail env t0 rt argv dir pf wg hstart]
    apply noWriteBeforeWait_of_noWrite
    intro e he
    rcases List.mem_append.mp he with h | h
    · exact h0 e h
    · simp only [List.mem_cons, List.not_mem_nil, or_false] at h
      rcases h with rfl | rfl | rfl <;> rfl
  | true =>
    cases hwait4 : env.wait4Ok with
    | false =>
      rw [afterSpawn_wait4Fail env t0 rt argv dir pf wg hstart hwait4]
      apply noWriteBeforeWait_of_noWrite
      intro e he
      rcases List.mem_append.mp he with h | h
      · exact h0 e h
      · simp only [List.mem_cons, List.not_mem_nil, or_false] at h
        rcases h with rfl | rfl <;> rfl
    | true =>
      by_cases hnz : wsExitStatus env.frontStatus = 0
      · cases hpid : env.pidParse with
        | none =>
          rw [afterSpawn_pidFail env t0 rt argv dir pf wg hstart hwait4 hnz
            hpid]
          apply noWriteBeforeWait_of_noWrite
          intro e he
          rcases List.mem_append.mp he with h | h
          · exact h0 e h
          · simp only [List.mem_cons, List.not_mem_nil, or_false] at h
            rcases h with rfl | rfl | rfl | rfl | rfl <;> rfl
        | some pid =>
          rw [afterSpawn_success env t0 rt argv dir pf wg pid hstart hwait4
            hnz hpid]
          simp only [List.append_assoc]
          apply noWriteBeforeWait_append _ _ h0
          apply noWriteBeforeWait_append
          · intro e he
            simp only [List.mem_cons, List.not_mem_nil, or_false] at he
            rcases he with rfl | rfl | rfl | rfl | rfl <;> rfl
          · exact waitGo_nwbw _ _ _ _ _
      · rw [afterSpawn_frontNonzero env t0 rt argv dir pf wg hstart hwait4 hnz]
        apply noWriteBeforeWait_of_noWrite
        intro e he
        rcases List.mem_append.mp he with h | h
        · exact h0 e h
        · simp only [List.mem_cons, List.not_mem_nil, or_false] at h
          rcases h with rfl | rfl | rfl | rfl <;> rfl

/-- The FIFO-opening trace is write-free. -/
lemma openPipes_noWrite (env : Env) (dir : String) :
    ∀ e ∈ (openPipes env dir).1, isWriteEvent e = false := fun e he => by
  obtain ⟨p, f, rfl⟩ := openPipesGo_events env _ e he
  rfl

end Dadoo

namespace Dadoo

/-- Claim C2: for every run, scanning the side-effect trace of `run`
from the left reaches the reaper's `ioWg.Wait()` (or the end of the
trace) before any file write: the exitcode file is written only after
the master→stdout pump has been drained to EOF (the wait returns only
once the pump counter is zero), so readers of the exitcode file see all
captured output already flushed. -/
theorem claim2_exitcode_after_drain (env : Env) :
    noWriteBeforeWait (run env).1 = true := by
  by_cases hargs : env.args.length < 4
  · simp [run, hargs, noWriteBeforeWait]
  · cases hop : (openPipes env (argD env.args 2)).2 with
    | true =>
      rw [run_eq_fifoFail env hargs hop]
      exact noWriteBeforeWait_of_noWrite _ (openPipes_noWrite env _)
    | false =>
      have hpre : ∀ e ∈ (openPipes env (argD env.args 2)).1
          ++ [Event.syncWrite 0], isWriteEvent e = false := by
        intro e he
        rcases List.mem_append.mp he with h | h
        · exact openPipes_noWrite env _ e h
        · simp only [List.mem_cons, List.not_mem_nil, or_false] at h
          rcases h with rfl
          rfl
      cases htty : env.tty with
      | false =>
        rw [run_eq_nonTty env hargs hop htty]
        exact afterSpawn_nwbw env _ _ _ _ _ _ hpre
      | true =>
        by_cases hsz :
            env.socketDirPath.utf8ByteSize > maxSocketDirPathLength
        · rw [run_eq_tty_toolong env hargs hop htty hsz]
          exact noWriteBeforeWait_of_noWrite _ hpre
        · cases htd : env.tempDirOk with
          | false =>
            rw [run_eq_tempDirFail env hargs hop htty hsz htd]
            apply noWriteBeforeWait_of_noWrite
            intro e he
            rcases List.mem_append.mp he with h | h
            · exact openPipes_noWrite env _ e h
            · simp only [List.mem_cons, List.not_mem_nil, or_false] at h
              rcases h with rfl | rfl <;> rfl
          | true =>
            cases hls : env.listenOk with
            | false =>
              rw [run_eq_listenFail env hargs hop htty hsz htd hls]
              apply noWriteBeforeWait_of_noWrite
              intro e he
              rcases List.mem_append.mp he with h | h
              · exact openPipes_noWrite env _ e h
              · simp only [List.mem_cons, List.not_mem_nil, or_false] at h
                rcases h with rfl | rfl | rfl <;> rfl
            | true =>
              rw [run_eq_tty env hargs hop htty hsz htd hls]
              apply afterSpawn_nwbw
              intro e he
              simp only [List.append_assoc] at he
              rcases List.mem_append.mp he with h | h
              · exact openPipes_noWrite env _ e h
              · simp only [List.mem_append, List.mem_cons,
                  List.not_mem_nil, or_false] at h
                rcases h with rfl | rfl | rfl | rfl <;> rfl

end Dadoo

namespace Dadoo

/-- A concrete successful non-TTY run: front-process exits 0, the pid
file parses to 42, and the second SIGCHLD batch reaps pid 42 with raw
wait status `7 << 8` (normal exit 7). -/
def envW1 : Env :=
  { tty := false, socketDirPath := "", args := ["exec", "runc", "/state", "cid"],
    selfPid := 9, fifo := fun _ => FifoOutcome.opened, tempDirOk := true,
    tempSubdir := "x", listenOk := true, startOk := true, wait4Ok := true,
    frontStatus := 0, pidParse := some 42, reaps := [[(5, 0)], [(42, 1792)]],
    ioCounterAtWait := 0, writeFileOk := true }

/-- Witness for C1 at `envW1`: hypotheses hold and the conclusion
evaluates — the exitcode file write carries `"7"` with mode 448 and the
supervisor exits 7. -/
theorem claim1_exitcode_persisted_witness :
    envW1.startOk = true ∧ wsExitStatus envW1.frontStatus = 0 ∧
    ∃ pid w, envW1.pidParse = some pid ∧
      firstReap pid envW1.reaps = some w ∧
      (w % 128 = 0 → (7 : Int) = (((w / 256) % 256 : Nat) : Int)) ∧
      (w % 128 ≠ 0 → w % 128 ≠ 127 →
        (7 : Int) = 128 + ((w % 128 : Nat) : Int)) ∧
      Event.writeFile (goJoin (argD envW1.args 2) "exitcode")
        (toString (7 : Int)) 448 ∈ (run envW1).1 :=
  ⟨rfl, by decide,
   claim1_exitcode_persisted envW1 (run envW1).1 7 rfl (by decide) (by decide)⟩

end Dadoo

namespace Dadoo

/-- Claim C7: for every run reaching the spawn attempt in which the
runtime binary cannot be spawned, the supervisor writes exactly the
byte `0x02` on the status channel (fd 3), exits with code 2, and
produces no exitcode file (no file write at all). -/
theorem claim7_spawn_failure (env : Env)
    (hargs : ¬ env.args.length < 4)
    (hfifo : ∀ p, env.fifo p ≠ FifoOutcome.failed)
    (htty : env.tty = true →
      env.socketDirPath.utf8ByteSize ≤ 80 ∧ env.tempDirOk = true ∧
        env.listenOk = true)
    (hstart : env.startOk = false) :
    (run env).2 = RunResult.exit 2 ∧
    ((run env).1).filterMap fd3Byte = [2] ∧
    ((run env).1).any isWriteEvent = false ∧
    ((run env).1).any isStart = true := by
  have hop := openPipes_ok env hfifo (argD env.args 2)
  have hfd3 := openPipes_filterMap env (argD env.args 2) fd3Byte
    (fun _ _ => rfl)
  have hwr := openPipes_any env (argD env.args 2) isWriteEvent
    (fun _ _ => rfl)
  have hst := openPipes_any env (argD env.args 2) isStart (fun _ _ => rfl)
  cases htty0 : env.tty with
  | false =>
    rw [run_eq_nonTty env hargs hop htty0,
      afterSpawn_startFail env _ _ _ _ _ _ hstart]
    refine ⟨rfl, ?_, ?_, ?_⟩
    · simp [List.filterMap_append, hfd3, fd3Byte]
    · simp [List.any_append, hwr, isWriteEvent]
    · simp [List.any_append, isStart]
  | true =>
    obtain ⟨hsz80, htd, hls⟩ := htty htty0
    have hsz : ¬ env.socketDirPath.utf8ByteSize > maxSocketDirPathLength :=
      not_lt.mpr hsz80
    rw [run_eq_tty env hargs hop htty0 hsz htd hls,
      afterSpawn_startFail env _ _ _ _ _ _ hstart]
    refine ⟨rfl, ?_, ?_, ?_⟩
    · simp [List.filterMap_append, hfd3, fd3Byte]
    · simp [List.any_append, hwr, isWriteEvent]
    · simp [List.any_append, isStart]

/-- A concrete run whose runtime binary cannot be spawned. -/
def envW7 : Env :=
  { tty := false, socketDirPath := "", args := ["exec", "bogus", "/state", "cid"],
    selfPid := 9, fifo := fun _ => FifoOutcome.opened, tempDirOk := true,
    tempSubdir := "x", listenOk := true, startOk := false, wait4Ok := true,
    frontStatus := 0, pidParse := none, reaps := [],
    ioCounterAtWait := 0, writeFileOk := true }

/-- Witness for C7 at `envW7`. -/
theorem claim7_spawn_failure_witness :
    envW7.startOk = false ∧
    ((run envW7).2 = RunResult.exit 2 ∧
     ((run envW7).1).filterMap fd3Byte = [2] ∧
     ((run envW7).1).any isWriteEvent = false ∧
     ((run envW7).1).any isStart = true) :=
  ⟨rfl, claim7_spawn_failure envW7 (by decide)
    (fun _ h => FifoOutcome.noConfusion h) (by decide) rfl⟩

/-- Claim C8: for every run in which the runtime spawns but its
front-process exits with a non-zero status `s`, the supervisor writes
exactly the byte `s` on the status channel (fd 3), exits with code 3,
and produces no exitcode file. -/
theorem claim8_front_failure (env : Env) (s : Nat)
    (hargs : ¬ env.args.length < 4)
    (hfifo : ∀ p, env.fifo p ≠ FifoOutcome.failed)
    (htty : env.tty = true →
      env.socketDirPath.utf8ByteSize ≤ 80 ∧ env.tempDirOk = true ∧
        env.listenOk = true)
    (hstart : env.startOk = true) (hwait4 : env.wait4Ok = true)
    (hw : env.frontStatus % 128 = 0)
    (hs : (env.frontStatus / 256) % 256 = s) (hnz : s ≠ 0) :
    (run env).2 = RunResult.exit 3 ∧
    ((run env).1).filterMap fd3Byte = [s] ∧
    ((run env).1).any isWriteEvent = false := by
  have hop := openPipes_ok env hfifo (argD env.args 2)
  have hfd3 := openPipes_filterMap env (argD env.args 2) fd3Byte
    (fun _ _ => rfl)
  have hwr := openPipes_any env (argD env.args 2) isWriteEvent
    (fun _ _ => rfl)
  have hslt : s < 256 := by omega
  have h1 : wsExitStatus env.frontStatus = (s : Int) := by
    simp [wsExitStatus, hw, hs]
  have hnzInt : wsExitStatus env.frontStatus ≠ 0 := by
    rw [h1]
    exact_mod_cast hnz
  have hb : byteOfInt (wsExitStatus env.frontStatus) = s := by
    rw [h1]
    unfold byteOfInt
    rw [Int.emod_eq_of_lt (Int.natCast_nonneg s) (by exact_mod_cast hslt)]
    simp
  cases htty0 : env.tty with
  | false =>
    rw [run_eq_nonTty env hargs hop htty0,
      afterSpawn_frontNonzero env _ _ _ _ _ _ hstart hwait4 hnzInt]
    refine ⟨rfl, ?_, ?_⟩
    · simp [List.filterMap_append, hfd3, fd3Byte, hb]
    · simp [List.any_append, hwr, isWriteEvent]
  | true =>
    obtain ⟨hsz80, htd, hls⟩ := htty htty0
    have hsz : ¬ env.socketDirPath.utf8ByteSize > maxSocketDirPathLength :=
      not_lt.mpr hsz80
    rw [run_eq_tty env hargs hop htty0 hsz htd hls,
      afterSpawn_frontNonzero env _ _ _ _ _ _ hstart hwait4 hnzInt]
    refine ⟨rfl, ?_, ?_⟩
    · simp [List.filterMap_append, hfd3, fd3Byte, hb]
    · simp [List.any_append, hwr, isWriteEvent]

/-- A concrete run whose front-process exits 5 (raw status `5 << 8`). -/
def envW8 : Env :=
  { tty := false, socketDirPath := "", args := ["exec", "runc", "/state", "cid"],
    selfPid := 9, fifo := fun _ => FifoOutcome.opened, tempDirOk := true,
    tempSubdir := "x", listenOk := true, startOk := true, wait4Ok := true,
    frontStatus := 1280, pidParse := none, reaps := [],
    ioCounterAtWait := 0, writeFileOk := true }

/-- Witness for C8 at `envW8`: the front-process exits 5, the status
byte is 5 and the supervisor exits 3. -/
theorem claim8_front_failure_witness :
    envW8.startOk = true ∧ envW8.frontStatus % 128 = 0 ∧
    (envW8.frontStatus / 256) % 256 = 5 ∧
    ((run envW8).2 = RunResult.exit 3 ∧
     ((run envW8).1).filterMap fd3Byte = [5] ∧
     ((run envW8).1).any isWriteEvent = false) :=
  ⟨rfl, by decide, by decide,
   claim8_front_failure envW8 5 (by decide)
     (fun _ h => FifoOutcome.noConfusion h) (by decide) rfl rfl
     (by decide) (by decide) (by decide)⟩

end Dadoo

namespace Dadoo

/-- Claim C9: in the TTY broker goroutine, every failure at or after
the accept step — accept failure, master-fd extraction failure
(`unixconn.File()`), or `RecvFd` failure — runs `killProcess`: the pid
file is read under the 20-attempt 500 ms retrier and, whenever that
read yields a pid, that pid is SIGKILLed; the failure then propagates
as a fatal panic. -/
theorem claim9_broker_failure_kills (benv : BrokerEnv)
    (pidFilePath sockDir : String)
    (hfail : benv.acceptOk = false ∨
      (benv.acceptOk = true ∧ benv.isUnixConn = true ∧
        benv.fileOk = false) ∨
      (benv.acceptOk = true ∧ benv.isUnixConn = true ∧
        benv.fileOk = true ∧ benv.recvFdOk = false)) :
    (ttyBroker benv pidFilePath sockDir).2 = true ∧
    Event.pidRetry pidFilePath constantBackoffCount constantBackoffMillis
      ∈ (ttyBroker benv pidFilePath sockDir).1 ∧
    (∀ pid, readPid benv.pidAttempt = some pid →
      Event.sigkill pid ∈ (ttyBroker benv pidFilePath sockDir).1) := by
  have hkill : ∀ pid, readPid benv.pidAttempt = some pid →
      Event.sigkill pid ∈ killProcess pidFilePath benv.pidAttempt := by
    intro pid hp
    simp [killProcess, hp]
  rcases hfail with h | ⟨h1, h2, h3⟩ | ⟨h1, h2, h3, h4⟩
  · have he : ttyBroker benv pidFilePath sockDir =
        ([Event.acceptConn] ++ killProcess pidFilePath benv.pidAttempt,
         true) := by
      simp [ttyBroker, ttyBrokerBody, h]
    rw [he]
    refine ⟨rfl, ?_, ?_⟩
    · simp [killProcess]
    · intro pid hp
      exact List.mem_append.mpr (Or.inr (hkill pid hp))
  · have he : ttyBroker benv pidFilePath sockDir =
        ([Event.acceptConn, Event.closeListener, Event.connFile]
          ++ killProcess pidFilePath benv.pidAttempt, true) := by
      simp [ttyBroker, ttyBrokerBody, h1, h2, h3]
    rw [he]
    refine ⟨rfl, ?_, ?_⟩
    · simp [killProcess]
    · intro pid hp
      exact List.mem_append.mpr (Or.inr (hkill pid hp))
  · have he : ttyBroker benv pidFilePath sockDir =
        ([Event.acceptConn, Event.closeListener, Event.connFile,
          Event.recvFd] ++ killProcess pidFilePath benv.pidAttempt,
         true) := by
      simp [ttyBroker, ttyBrokerBody, h1, h2, h3, h4]
    rw [he]
    refine ⟨rfl, ?_, ?_⟩
    · simp [killProcess]
    · intro pid hp
      exact List.mem_append.mpr (Or.inr (hkill pid hp))

/-- A concrete broker environment whose accept fails and whose pid file
reads as 77. -/
def envB9 : BrokerEnv :=
  { acceptOk := false, isUnixConn := true, fileOk := true,
    recvFdOk := true, pidAttempt := fun _ => some 77 }

/-- Witness for C9 at `envB9`. -/
theorem claim9_broker_failure_kills_witness :
    envB9.acceptOk = false ∧
    (ttyBroker envB9 "/state/pidfile" "/socks/d1").2 = true ∧
    Event.pidRetry "/state/pidfile" constantBackoffCount
      constantBackoffMillis ∈ (ttyBroker envB9 "/state/pidfile" "/socks/d1").1 ∧
    Event.sigkill 77 ∈ (ttyBroker envB9 "/state/pidfile" "/socks/d1").1 := by
  have h := claim9_broker_failure_kills envB9 "/state/pidfile" "/socks/d1"
    (Or.inl rfl)
  exact ⟨rfl, h.1, h.2.1, h.2.2 77 (by decide)⟩

/-- The `afterSpawn` phase adds no event satisfying a predicate that is
false on every event kind it can emit. -/
lemma afterSpawn_any (env : Env) (t0 : Trace) (rt : String)
    (argv : List String) (dir pf : String) (wg : Nat) (q : Event → Bool)
    (h1 : q Event.setSubreaper = false)
    (h2 : ∀ p a, q (Event.startRuntime p a) = false)
    (h3 : ∀ b, q (Event.fd3Write b) = false)
    (h4 : q Event.closeLog = false)
    (h5 : ∀ p, q (Event.parsePidFile p) = false)
    (h6 : ∀ c, q (Event.ioWgWait c) = false)
    (h7 : ∀ p s m, q (Event.writeFile p s m) = false) :
    ((afterSpawn env t0 rt argv dir pf wg).1).any q = t0.any q := by
  cases hstart : env.startOk with
  | false =>
    rw [afterSpawn_startFail env t0 rt argv dir pf wg hstart]
    simp [List.any_append, h1, h2, h3]
  | true =>
    cases hwait4 : env.wait4Ok with
    | false =>
      rw [afterSpawn_wait4Fail env t0 rt argv dir pf wg hstart hwait4]
      simp [List.any_append, h1, h2]
    | true =>
      by_cases hnz : wsExitStatus env.frontStatus = 0
      · cases hpid : env.pidParse with
        | none =>
          rw [afterSpawn_pidFail env t0 rt argv dir pf wg hstart hwait4 hnz
            hpid]
          simp [List.any_append, h1, h2, h3, h4, h5]
        | some pid =>
          rw [afterSpawn_success env t0 rt argv dir pf wg pid hstart hwait4
            hnz hpid]
          simp [List.any_append, h1, h2, h3, h4, h5,
            waitGo_any q h6 h7]
      · rw [afterSpawn_frontNonzero env t0 rt argv dir pf wg hstart hwait4
          hnz]
        simp [List.any_append, h1, h2, h3, h4]

/-- Every `ioWg.Wait` of the `afterSpawn` phase observes the counter
value it was given, provided the prefix contains none. -/
lemma afterSpawn_waitCounter (env : Env) (t0 : Trace) (rt : String)
    (argv : List String) (dir pf : String) (wg : Nat)
    (h0 : t0.filterMap waitCounter = []) :
    ∀ c ∈ ((afterSpawn env t0 rt argv dir pf wg).1).filterMap waitCounter,
      c = wg := by
  intro c hc
  cases hstart : env.startOk with
  | false =>
    rw [afterSpawn_startFail env t0 rt argv dir pf wg hstart] at hc
    simp [List.filterMap_append, h0, waitCounter] at hc
  | true =>
    cases hwait4 : env.wait4Ok with
    | false =>
      rw [afterSpawn_wait4Fail env t0 rt argv dir pf wg hstart hwait4] at hc
      simp [List.filterMap_append, h0, waitCounter] at hc
    | true =>
      by_cases hnz : wsExitStatus env.frontStatus = 0
      · cases hpid : env.pidParse with
        | none =>
          rw [afterSpawn_pidFail env t0 rt argv dir pf wg hstart hwait4 hnz
            hpid] at hc
          simp [List.filterMap_append, h0, waitCounter] at hc
        | some pid =>
          rw [afterSpawn_success env t0 rt argv dir pf wg pid hstart hwait4
            hnz hpid] at hc
          simp only [List.append_assoc, List.filterMap_append, h0,
            List.nil_append, List.mem_append] at hc
          rcases hc with hc | hc
          · simp [waitCounter] at hc
          · exact waitGo_waitCounter wg env.writeFileOk dir pid env.reaps c hc
      · rw [afterSpawn_frontNonzero env t0 rt argv dir pf wg hstart hwait4
          hnz] at hc
        simp [List.filterMap_append, h0, waitCounter] at hc

/-- Claim C10: for every non-TTY run, the I/O wait counter is never
incremented — no `ioWg.Add` and no broker-goroutine spawn occur in the
trace — and every `ioWg.Wait` the reaper performs observes counter 0,
so it completes immediately and the exitcode file is written as soon as
the container pid is reaped, with no output-drain synchronization. -/
theorem claim10_nonTty_no_drain (env : Env) (htty : env.tty = false) :
    ((run env).1).any isWgAdd = false ∧
    ((run env).1).any isBrokerSpawn = false ∧
    ∀ c ∈ ((run env).1).filterMap waitCounter, c = 0 := by
  by_cases hargs : env.args.length < 4
  · simp [run, hargs]
  · cases hop : (openPipes env (argD env.args 2)).2 with
    | true =>
      rw [run_eq_fifoFail env hargs hop]
      refine ⟨openPipes_any env _ isWgAdd (fun _ _ => rfl),
        openPipes_any env _ isBrokerSpawn (fun _ _ => rfl), ?_⟩
      intro c hc
      rw [openPipes_filterMap env _ waitCounter (fun _ _ => rfl)] at hc
      simp at hc
    | false =>
      rw [run_eq_nonTty env hargs hop htty]
      have h0 : ((openPipes env (argD env.args 2)).1
          ++ [Event.syncWrite 0]).filterMap waitCounter = [] := by
        simp [List.filterMap_append,
          openPipes_filterMap env _ waitCounter (fun _ _ => rfl), waitCounter]
      refine ⟨?_, ?_, afterSpawn_waitCounter env _ _ _ _ _ 0 h0⟩
      · rw [afterSpawn_any env _ _ _ _ _ 0 isWgAdd rfl (fun _ _ => rfl)
          (fun _ => rfl) rfl (fun _ => rfl) (fun _ => rfl)
          (fun _ _ _ => rfl)]
        simp [List.any_append,
          openPipes_any env _ isWgAdd (fun _ _ => rfl), isWgAdd]
      · rw [afterSpawn_any env _ _ _ _ _ 0 isBrokerSpawn rfl (fun _ _ => rfl)
          (fun _ => rfl) rfl (fun _ => rfl) (fun _ => rfl)
          (fun _ _ _ => rfl)]
        simp [List.any_append,
          openPipes_any env _ isBrokerSpawn (fun _ _ => rfl), isBrokerSpawn]

/-- Witness for C10 at `envW1` (a non-TTY run). -/
theorem claim10_nonTty_no_drain_witness :
    envW1.tty = false ∧
    (((run envW1).1).any isWgAdd = false ∧
     ((run envW1).1).any isBrokerSpawn = false ∧
     ∀ c ∈ ((run envW1).1).filterMap waitCounter, c = 0) :=
  ⟨rfl, claim10_nonTty_no_drain envW1 rfl⟩

end Dadoo

namespace Dadoo

/-- Event kinds of the reaper trace. -/
lemma waitGo_events (wgCount : Nat) (writeOk : Bool) (dir : String)
    (pid : Int) :
    ∀ reaps, ∀ e ∈ (waitGo wgCount writeOk dir pid reaps).1,
      (∃ c, e = Event.ioWgWait c) ∨ ∃ q s m, e = Event.writeFile q s m := by
  intro reaps
  induction reaps with
  | nil => intro e he; simp [waitGo] at he
  | cons b rest ih =>
    intro e he
    cases hf : findContainer pid b with
    | some w =>
      cases writeOk <;> simp [waitGo, hf] at he <;>
        rcases he with rfl | rfl
      · exact Or.inl ⟨_, rfl⟩
      · exact Or.inr ⟨_, _, _, rfl⟩
      · exact Or.inl ⟨_, rfl⟩
      · exact Or.inr ⟨_, _, _, rfl⟩
    | none =>
      simp only [waitGo, hf] at he
      exact ih e he

/-- Event kinds added by the `afterSpawn` phase, beyond its prefix. -/
lemma afterSpawn_events (env : Env) (t0 : Trace) (rt : String)
    (argv : List String) (dir pf : String) (wg : Nat) :
    ∀ e ∈ (afterSpawn env t0 rt argv dir pf wg).1,
      e ∈ t0 ∨ e = Event.setSubreaper ∨ e = Event.startRuntime rt argv ∨
      e = Event.closeLog ∨ (∃ b, e = Event.fd3Write b) ∨
      e = Event.parsePidFile pf ∨ (∃ c, e = Event.ioWgWait c) ∨
      (∃ q s m, e = Event.writeFile q s m) := by
  intro e he
  cases hstart : env.startOk with
  | false =>
    rw [afterSpawn_startFail env t0 rt argv dir pf wg hstart] at he
    rcases List.mem_append.mp he with h | h
    · exact Or.inl h
    · simp only [List.mem_cons, List.not_mem_nil, or_false] at h
      rcases h with rfl | rfl | rfl
      · exact Or.inr (Or.inl rfl)
      · exact Or.inr (Or.inr (Or.inl rfl))
      · exact Or.inr (Or.inr (Or.inr (Or.inr (Or.inl ⟨_, rfl⟩))))
  | true =>
    cases hwait4 : env.wait4Ok with
    | false =>
      rw [afterSpawn_wait4Fail env t0 rt argv dir pf wg hstart hwait4] at he
      rcases List.mem_append.mp he with h | h
      · exact Or.inl h
      · simp only [List.mem_cons, List.not_mem_nil, or_false] at h
        rcases h with rfl | rfl
        · exact Or.inr (Or.inl rfl)
        · exact Or.inr (Or.inr (Or.inl rfl))
    | true =>
      by_cases hnz : wsExitStatus env.frontStatus = 0
      · cases hpid : env.pidParse with
        | none =>
          rw [afterSpawn_pidFail env t0 rt argv dir pf wg hstart hwait4 hnz
            hpid] at he
          rcases List.mem_append.mp he with h | h
          · exact Or.inl h
          · simp only [List.mem_cons, List.not_mem_nil, or_false] at h
            rcases h with rfl | rfl | rfl | rfl | rfl
            · exact Or.inr (Or.inl rfl)
            · exact Or.inr (Or.inr (Or.inl rfl))
            · exact Or.inr (Or.inr (Or.inr (Or.inl rfl)))
            · exact Or.inr (Or.inr (Or.inr (Or.inr (Or.inl ⟨_, rfl⟩))))
            · exact Or.inr (Or.inr (Or.inr (Or.inr (Or.inr (Or.inl rfl)))))
        | some pid =>
          rw [afterSpawn_success env t0 rt argv dir pf wg pid hstart hwait4
            hnz hpid] at he
          simp only [List.append_assoc, List.mem_append] at he
          rcases he with h | h | h
          · exact Or.inl h
          · simp only [List.mem_cons, List.not_mem_nil, or_false] at h
            rcases h with rfl | rfl | rfl | rfl | rfl
            · exact Or.inr (Or.inl rfl)
            · exact Or.inr (Or.inr (Or.inl rfl))
            · exact Or.inr (Or.inr (Or.inr (Or.inl rfl)))
            · exact Or.inr (Or.inr (Or.inr (Or.inr (Or.inl ⟨_, rfl⟩))))
            · exact Or.inr (Or.inr (Or.inr (Or.inr (Or.inr (Or.inl rfl)))))
          · rcases waitGo_events wg env.writeFileOk dir pid env.reaps e h
              with ⟨c, rfl⟩ | ⟨q, s, m, rfl⟩
            · exact Or.inr (Or.inr (Or.inr (Or.inr (Or.inr (Or.inr
                (Or.inl ⟨_, rfl⟩))))))
            · exact Or.inr (Or.inr (Or.inr (Or.inr (Or.inr (Or.inr
                (Or.inr ⟨_, _, _, rfl⟩))))))
      · rw [afterSpawn_frontNonzero env t0 rt argv dir pf wg hstart hwait4
          hnz] at he
        rcases List.mem_append.mp he with h | h
        · exact Or.inl h
        · simp only [List.mem_cons, List.not_mem_nil, or_false] at h
          rcases h with rfl | rfl | rfl | rfl
          · exact Or.inr (Or.inl rfl)
          · exact Or.inr (Or.inr (Or.inl rfl))
          · exact Or.inr (Or.inr (Or.inr (Or.inl rfl)))
          · exact Or.inr (Or.inr (Or.inr (Or.inr (Or.inl ⟨_, rfl⟩))))

/-- Whatever the TTY mode, `run` (under a passing argument count, FIFO
phase and TTY setup) is an `afterSpawn` call whose prefix holds only
pre-spawn events and whose argument vector has one of the two source
forms. -/
lemma run_split (env : Env) (hargs : ¬ env.args.length < 4)
    (hop : (openPipes env (argD env.args 2)).2 = false)
    (htty : env.tty = true →
      ¬ env.socketDirPath.utf8ByteSize > maxSocketDirPathLength ∧
      env.tempDirOk = true ∧ env.listenOk = true) :
    ∃ T0 argv wg,
      run env = afterSpawn env T0 (argD env.args 1) argv (argD env.args 2)
        (goJoin (argD env.args 2) "pidfile") wg ∧
      (∀ e ∈ T0, (∃ p f, e = Event.openFifo p f) ∨ e = Event.syncWrite 0 ∨
        e = Event.mkTempDir env.socketDirPath ∨
        e = Event.listenUnix
          (goJoin (goJoin env.socketDirPath env.tempSubdir) "tty.sock") ∨
        e = Event.spawnBroker) ∧
      (argv = nonTtyArgv env.selfPid (goJoin (argD env.args 2) "pidfile")
          (argD env.args 3) ∨
       argv = ttyArgv env.selfPid
          (goJoin (goJoin env.socketDirPath env.tempSubdir) "tty.sock")
          (goJoin (argD env.args 2) "pidfile") (argD env.args 3)) := by
  cases htty0 : env.tty with
  | false =>
    refine ⟨_, _, 0, run_eq_nonTty env hargs hop htty0, ?_, Or.inl rfl⟩
    intro e he
    rcases List.mem_append.mp he with h | h
    · exact Or.inl (openPipesGo_events env _ e h)
    · simp only [List.mem_cons, List.not_mem_nil, or_false] at h
      rcases h with rfl
      exact Or.inr (Or.inl rfl)
  | true =>
    obtain ⟨hsz, htd, hls⟩ := htty htty0
    refine ⟨_, _, env.ioCounterAtWait,
      run_eq_tty env hargs hop htty0 hsz htd hls, ?_, Or.inr rfl⟩
    intro e he
    simp only [List.append_assoc, List.mem_append] at he
    rcases he with h | h | h
    · exact Or.inl (openPipesGo_events env _ e h)
    · simp only [List.mem_cons, List.not_mem_nil, or_false] at h
      rcases h with rfl
      exact Or.inr (Or.inl rfl)
    · simp only [List.mem_cons, List.not_mem_nil, or_false] at h
      rcases h with rfl | rfl | rfl
      · exact Or.inr (Or.inr (Or.inl rfl))
      · exact Or.inr (Or.inr (Or.inr (Or.inl rfl)))
      · exact Or.inr (Or.inr (Or.inr (Or.inr rfl)))

end Dadoo

namespace Dadoo

/-- `envW1` with an unreadable pid file. -/
def envC3b : Env := { envW1 with pidParse := none }

/-- Counterexample to C3 as stated: a complete successful run reads the
container pid with a single direct `parsePid` and no 20-attempt 500 ms
retry loop ever appears in the trace; and when the pid file does not
parse, the run panics at once, again with no retry. -/
theorem claim3_counterexample :
    (run envW1).2 = RunResult.exit 7 ∧
    Event.parsePidFile (goJoin "/state" "pidfile") ∈ (run envW1).1 ∧
    ((run envW1).1).any isPidRetry = false ∧
    (run envC3b).2 = RunResult.panicked "parsePid failed" ∧
    ((run envC3b).1).any isPidRetry = false := by decide

/-- Claim C3 (amended): after the runtime front-process exits 0, the
supervisor reads the container pid with a single `parsePid` attempt —
the trace holds the direct read and never a retried read (the
20-attempt 500 ms retrier exists only inside `killProcess`) — and a
parse failure is immediately fatal. -/
theorem claim3_single_parse_no_retry (env : Env)
    (hargs : ¬ env.args.length < 4)
    (hfifo : ∀ p, env.fifo p ≠ FifoOutcome.failed)
    (htty : env.tty = true →
      ¬ env.socketDirPath.utf8ByteSize > maxSocketDirPathLength ∧
      env.tempDirOk = true ∧ env.listenOk = true)
    (hstart : env.startOk = true) (hwait4 : env.wait4Ok = true)
    (hfront : wsExitStatus env.frontStatus = 0) :
    Event.parsePidFile (goJoin (argD env.args 2) "pidfile") ∈ (run env).1 ∧
    ((run env).1).any isPidRetry = false ∧
    (env.pidParse = none →
      (run env).2 = RunResult.panicked "parsePid failed") := by
  obtain ⟨T0, argv, wg, hrunEq, hT0, -⟩ :=
    run_split env hargs (openPipes_ok env hfifo _) htty
  have hT0retry : T0.any isPidRetry = false :=
    List.any_eq_false.mpr fun e he => by
      rcases hT0 e he with ⟨p, f, rfl⟩ | rfl | rfl | rfl | rfl <;>
        simp [isPidRetry]
  rw [hrunEq]
  refine ⟨?_, ?_, ?_⟩
  · cases hpid : env.pidParse with
    | none =>
      rw [afterSpawn_pidFail env T0 _ argv _ _ wg hstart hwait4 hfront hpid]
      simp
    | some pid =>
      rw [afterSpawn_success env T0 _ argv _ _ wg pid hstart hwait4 hfront
        hpid]
      simp
  · rw [afterSpawn_any env T0 _ argv _ _ wg isPidRetry rfl (fun _ _ => rfl)
      (fun _ => rfl) rfl (fun _ => rfl) (fun _ => rfl) (fun _ _ _ => rfl)]
    exact hT0retry
  · intro hpid
    rw [afterSpawn_pidFail env T0 _ argv _ _ wg hstart hwait4 hfront hpid]

/-- Witness for the amended C3 at `envW1`. -/
theorem claim3_single_parse_no_retry_witness :
    envW1.startOk = true ∧ wsExitStatus envW1.frontStatus = 0 ∧
    (Event.parsePidFile (goJoin (argD envW1.args 2) "pidfile")
        ∈ (run envW1).1 ∧
     ((run envW1).1).any isPidRetry = false ∧
     (envW1.pidParse = none →
       (run envW1).2 = RunResult.panicked "parsePid failed")) :=
  ⟨rfl, by decide,
   claim3_single_parse_no_retry envW1 (by decide)
     (fun _ h => FifoOutcome.noConfusion h) (by decide) rfl rfl (by decide)⟩

end Dadoo

namespace Dadoo

/-- An 80-byte socket directory path (the maximum the check allows). -/
def dir80 : String := String.mk (List.replicate 80 'a')

/-- A TTY run whose socket-dir path is exactly 80 bytes: the length
check passes, and the socket is created at
`<dir80>/123456789/tty.sock` — 99 bytes long. -/
def envC4 : Env :=
  { tty := true, socketDirPath := dir80,
    args := ["exec", "runc", "/state", "cid"],
    selfPid := 9, fifo := fun _ => FifoOutcome.opened, tempDirOk := true,
    tempSubdir := "123456789", listenOk := true, startOk := false,
    wait4Ok := true, frontStatus := 0, pidParse := none, reaps := [],
    ioCounterAtWait := 0, writeFileOk := true }

/-- Counterexample to C4 as stated: the socket path actually created in
this TTY run is 99 bytes long, exceeding 80 — only the caller-chosen
directory (80 bytes here) is bounded by the check. -/
theorem claim4_counterexample :
    Event.listenUnix
      (goJoin (goJoin envC4.socketDirPath envC4.tempSubdir) "tty.sock")
      ∈ (run envC4).1 ∧
    (goJoin (goJoin envC4.socketDirPath envC4.tempSubdir)
      "tty.sock").utf8ByteSize = 99 ∧
    80 < (goJoin (goJoin envC4.socketDirPath envC4.tempSubdir)
      "tty.sock").utf8ByteSize := by decide

/-- Claim C4 (amended): in TTY mode the *caller-chosen directory* is
bounded — a socket is created only if the `--socket-dir-path` value is
at most 80 bytes, and an oversize value aborts before any listen; the
created socket path itself is `<dir>/<random-subdir>/tty.sock`, which
exceeds the checked length by the subdirectory and file-name parts. -/
theorem claim4_dir_length_checked (env : Env)
    (hargs : ¬ env.args.length < 4)
    (hfifo : ∀ p, env.fifo p ≠ FifoOutcome.failed)
    (htty : env.tty = true) :
    (env.socketDirPath.utf8ByteSize > maxSocketDirPathLength →
      ((run env).1).any isListen = false ∧
      (run env).2 = RunResult.panicked
        "value for --socket-dir-path cannot exceed 80 characters in length") ∧
    (∀ p, Event.listenUnix p ∈ (run env).1 →
      env.socketDirPath.utf8ByteSize ≤ maxSocketDirPathLength ∧
      p = goJoin (goJoin env.socketDirPath env.tempSubdir) "tty.sock") := by
  have hop := openPipes_ok env hfifo (argD env.args 2)
  constructor
  · intro hsz
    rw [run_eq_tty_toolong env hargs hop htty hsz]
    refine ⟨?_, rfl⟩
    simp [List.any_append, openPipes_any env _ isListen (fun _ _ => rfl),
      isListen]
  · intro p hp
    by_cases hsz : env.socketDirPath.utf8ByteSize > maxSocketDirPathLength
    · rw [run_eq_tty_toolong env hargs hop htty hsz] at hp
      rcases List.mem_append.mp hp with h | h
      · obtain ⟨q, f, hq⟩ := openPipesGo_events env _ _ h
        exact absurd hq (by simp)
      · simp at h
    · refine ⟨not_lt.mp hsz, ?_⟩
      cases htd : env.tempDirOk with
      | false =>
        rw [run_eq_tempDirFail env hargs hop htty hsz htd] at hp
        rcases List.mem_append.mp hp with h | h
        · obtain ⟨q, f, hq⟩ := openPipesGo_events env _ _ h
          exact absurd hq (by simp)
        · simp at h
      | true =>
        cases hls : env.listenOk with
        | false =>
          rw [run_eq_listenFail env hargs hop htty hsz htd hls] at hp
          rcases List.mem_append.mp hp with h | h
          · obtain ⟨q, f, hq⟩ := openPipesGo_events env _ _ h
            exact absurd hq (by simp)
          · simp only [List.mem_cons, List.not_mem_nil, or_false] at h
            rcases h with h | h | h
            · exact absurd h (by simp)
            · exact absurd h (by simp)
            · injection h with h1
        | true =>
          rw [run_eq_tty env hargs hop htty hsz htd hls] at hp
          rcases afterSpawn_events env _ _ _ _ _ _ _ hp with
            h | h | h | h | ⟨b, h⟩ | h | ⟨c, h⟩ | ⟨q, s, m, h⟩
          · simp only [List.append_assoc, List.mem_append] at h
            rcases h with h | h | h
            · obtain ⟨q, f, hq⟩ := openPipesGo_events env _ _ h
              exact absurd hq (by simp)
            · simp at h
            · simp only [List.mem_cons, List.not_mem_nil, or_false] at h
              rcases h with h | h | h
              · exact absurd h (by simp)
              · injection h with h1
              · exact absurd h (by simp)
          · exact absurd h (by simp)
          · exact absurd h (by simp)
          · exact absurd h (by simp)
          · exact absurd h (by simp)
          · exact absurd h (by simp)
          · exact absurd h (by simp)
          · exact absurd h (by simp)

/-- Witness for the amended C4 at `envC4`. -/
theorem claim4_dir_length_checked_witness :
    envC4.tty = true ∧
    ((envC4.socketDirPath.utf8ByteSize > maxSocketDirPathLength →
      ((run envC4).1).any isListen = false ∧
      (run envC4).2 = RunResult.panicked
        "value for --socket-dir-path cannot exceed 80 characters in length") ∧
     (∀ p, Event.listenUnix p ∈ (run envC4).1 →
       envC4.socketDirPath.utf8ByteSize ≤ maxSocketDirPathLength ∧
       p = goJoin (goJoin envC4.socketDirPath envC4.tempSubdir)
         "tty.sock")) :=
  ⟨rfl, claim4_dir_length_checked envC4 (by decide)
    (fun _ h => FifoOutcome.noConfusion h) rfl⟩

end Dadoo

namespace Dadoo

/-- An 81-byte socket directory path (one over the limit). -/
def dir81 : String := String.mk (List.replicate 81 'a')

/-- A TTY run whose socket-dir path is 81 bytes. -/
def envC5 : Env :=
  { tty := true, socketDirPath := dir81,
    args := ["exec", "runc", "/state", "cid"],
    selfPid := 9, fifo := fun _ => FifoOutcome.opened, tempDirOk := true,
    tempSubdir := "123456789", listenOk := true, startOk := true,
    wait4Ok := true, frontStatus := 0, pidParse := none, reaps := [],
    ioCounterAtWait := 0, writeFileOk := true }

/-- Counterexample to C5 as stated: with `--tty` and an 81-byte
`--socket-dir-path` the supervisor does abort, but only after the FIFOs
have been opened and the sync byte has been written on fd 5 — those two
external side effects precede the length check in `run`. -/
theorem claim5_counterexample :
    (run envC5).2 = RunResult.panicked
      "value for --socket-dir-path cannot exceed 80 characters in length" ∧
    Event.openFifo (goJoin "/state" "stdin") oRDONLY ∈ (run envC5).1 ∧
    Event.syncWrite 0 ∈ (run envC5).1 := by decide

/-- Claim C5 (amended): on an oversize `--socket-dir-path` with `--tty`
the supervisor aborts after opening the FIFOs and writing the sync byte
on fd 5, but before any later external side effect: no socket is
created, the runtime is not spawned, no status byte goes out on fd 3,
and no file is written. -/
theorem claim5_oversize_abort (env : Env)
    (hargs : ¬ env.args.length < 4)
    (hfifo : ∀ p, env.fifo p ≠ FifoOutcome.failed)
    (htty : env.tty = true)
    (hsz : env.socketDirPath.utf8ByteSize > maxSocketDirPathLength) :
    (run env).2 = RunResult.panicked
      "value for --socket-dir-path cannot exceed 80 characters in length" ∧
    Event.syncWrite 0 ∈ (run env).1 ∧
    ((run env).1).any isListen = false ∧
    ((run env).1).any isStart = false ∧
    ((run env).1).filterMap fd3Byte = [] ∧
    ((run env).1).any isWriteEvent = false := by
  have hop := openPipes_ok env hfifo (argD env.args 2)
  rw [run_eq_tty_toolong env hargs hop htty hsz]
  refine ⟨rfl, by simp, ?_, ?_, ?_, ?_⟩
  · simp [List.any_append, openPipes_any env _ isListen (fun _ _ => rfl),
      isListen]
  · simp [List.any_append, openPipes_any env _ isStart (fun _ _ => rfl),
      isStart]
  · simp [List.filterMap_append,
      openPipes_filterMap env _ fd3Byte (fun _ _ => rfl), fd3Byte]
  · simp [List.any_append,
      openPipes_any env _ isWriteEvent (fun _ _ => rfl), isWriteEvent]

/-- Witness for the amended C5 at `envC5`. -/
theorem claim5_oversize_abort_witness :
    envC5.tty = true ∧
    envC5.socketDirPath.utf8ByteSize > maxSocketDirPathLength ∧
    ((run envC5).2 = RunResult.panicked
      "value for --socket-dir-path cannot exceed 80 characters in length" ∧
     Event.syncWrite 0 ∈ (run envC5).1 ∧
     ((run envC5).1).any isListen = false ∧
     ((run envC5).1).any isStart = false ∧
     ((run envC5).1).filterMap fd3Byte = [] ∧
     ((run envC5).1).any isWriteEvent = false) :=
  ⟨rfl, by decide,
   claim5_oversize_abort envC5 (by decide)
     (fun _ h => FifoOutcome.noConfusion h) rfl (by decide)⟩

/-- A run invoked with four positional arguments whose values name
their own positions. -/
def envC6 : Env :=
  { tty := false, socketDirPath := "",
    args := ["zeroth", "first", "second", "third"],
    selfPid := 9, fifo := fun _ => FifoOutcome.opened, tempDirOk := true,
    tempSubdir := "x", listenOk := true, startOk := false, wait4Ok := true,
    frontStatus := 0, pidParse := none, reaps := [],
    ioCounterAtWait := 0, writeFileOk := true }

/-- Counterexample to C6 as stated: the runtime binary spawned is the
*second* positional argument (`flag.Args()[1]`), not the first — with
positional arguments named after their indices the spawned path is
`"first"`, not `"zeroth"`. -/
theorem claim6_counterexample :
    spawnedRuntime (run envC6).1 = some "first" ∧
    argD envC6.args 0 = "zeroth" ∧
    spawnedRuntime (run envC6).1 ≠ some (argD envC6.args 0) := by decide

/-- Claim C6 (amended): the runtime path passed to `exec.Command` is
positional argument index 1 (the second), and the argument vector
carries `<arg 2>/pidfile` (so index 2, the third, is the process state
directory) and argument index 3 (the fourth) as the container id; index
0 is never used as the runtime. -/
theorem claim6_positional_roles (env : Env) (rt : String)
    (argv : List String)
    (hargs : ¬ env.args.length < 4)
    (hfifo : ∀ p, env.fifo p ≠ FifoOutcome.failed)
    (htty : env.tty = true →
      ¬ env.socketDirPath.utf8ByteSize > maxSocketDirPathLength ∧
      env.tempDirOk = true ∧ env.listenOk = true)
    (hmem : Event.startRuntime rt argv ∈ (run env).1) :
    rt = argD env.args 1 ∧
    goJoin (argD env.args 2) "pidfile" ∈ argv ∧
    argD env.args 3 ∈ argv := by
  obtain ⟨T0, argv0, wg, hrunEq, hT0, hargv⟩ :=
    run_split env hargs (openPipes_ok env hfifo _) htty
  rw [hrunEq] at hmem
  rcases afterSpawn_events env T0 _ argv0 _ _ wg _ hmem with
    h | h | h | h | ⟨b, h⟩ | h | ⟨c, h⟩ | ⟨q, s, m, h⟩
  · rcases hT0 _ h with ⟨p, f, hq⟩ | hq | hq | hq | hq <;>
      exact absurd hq (by simp)
  · exact absurd h (by simp)
  · injection h with h1 h2
    subst h1
    subst h2
    refine ⟨rfl, ?_, ?_⟩ <;>
      rcases hargv with rfl | rfl <;> simp [nonTtyArgv, ttyArgv]
  · exact absurd h (by simp)
  · exact absurd h (by simp)
  · exact absurd h (by simp)
  · exact absurd h (by simp)
  · exact absurd h (by simp)

/-- Witness for the amended C6 at `envW7`. -/
theorem claim6_positional_roles_witness :
    Event.startRuntime "bogus"
      (nonTtyArgv 9 (goJoin "/state" "pidfile") "cid") ∈ (run envW7).1 ∧
    ("bogus" = argD envW7.args 1 ∧
     goJoin (argD envW7.args 2) "pidfile"
       ∈ nonTtyArgv 9 (goJoin "/state" "pidfile") "cid" ∧
     argD envW7.args 3 ∈ nonTtyArgv 9 (goJoin "/state" "pidfile") "cid") :=
  ⟨by decide,
   claim6_positional_roles envW7 "bogus" _ (by decide)
     (fun _ h => FifoOutcome.noConfusion h) (by decide) (by decide)⟩

end Dadoo
